import Mathlib

/-!
Shallow embedding of the telemetry and alerting pipeline
(`monitoring/metrics_collector.py`, `monitoring/performance_tracker.py`,
`monitoring/alerts.py`).

Modelling conventions:
* Python `float` timestamps and millisecond durations are modelled as `ℚ`
  (the code only adds, subtracts, multiplies by 1000, divides and compares).
* Python `dict` is modelled as an association list with first-occurrence
  lookup, in-place overwrite on key collision and first-occurrence removal
  (`dictLookup`, `dictInsert`, `dictErase`), matching CPython semantics for
  lookup / `d[k] = v` / `d.pop(k)` up to iteration order of *distinct* keys.
* `collections.Counter` increments are modelled by `bump`.
* `time.time()` / `datetime.now()` are impure; every operation that reads the
  clock takes the current time as an explicit argument (`now : ℚ` for
  `time.time()`, a `PyDateTime` of pre-rendered `strftime` fields for
  `datetime.now()`).
* Python's global `hash` is implementation defined; it is passed in as an
  explicit parameter `pyHash : String → ℕ`.
* Logging and file I/O (`logger.*`, `_save_alert`, the background writer
  threads' serialization) have no effect on the in-memory state and are
  omitted; alert handlers only log in the source and are likewise omitted.
-/

namespace BankingBot

/- Batteries marks the `Rat` arithmetic operations `@[irreducible]`, which
blocks `decide`-style evaluation of concrete states; re-expose them for
elaboration within this development (the kernel is unaffected). -/
attribute [local semireducible] Rat.inv Rat.add Rat.mul Rat.sub

/-- First-occurrence lookup in an association list (Python `d[k]` / `k in d`). -/
def dictLookup {α β : Type} [DecidableEq α] : List (α × β) → α → Option β
  | [], _ => none
  | (k', v') :: t, k => if k' = k then some v' else dictLookup t k

/-- `d[k] = v`: overwrite the first binding of `k` in place, else append. -/
def dictInsert {α β : Type} [DecidableEq α] : List (α × β) → α → β → List (α × β)
  | [], k, v => [(k, v)]
  | (k', v') :: t, k, v => if k' = k then (k, v) :: t else (k', v') :: dictInsert t k v

/-- `d.pop(k)`: remove the first binding of `k` (no-op when absent). -/
def dictErase {α β : Type} [DecidableEq α] : List (α × β) → α → List (α × β)
  | [], _ => []
  | (k', v') :: t, k => if k' = k then t else (k', v') :: dictErase t k

/-- `Counter[k] += 1`. -/
def bump {α : Type} [DecidableEq α] : List (α × ℕ) → α → List (α × ℕ)
  | [], k => [(k, 1)]
  | (k', n) :: t, k => if k' = k then (k', n + 1) :: t else (k', n) :: bump t k

/-! ### Basic dictionary lemmas -/

theorem dictLookup_insert_self {α β : Type} [DecidableEq α]
    (l : List (α × β)) (k : α) (v : β) : dictLookup (dictInsert l k v) k = some v := by
  induction l with
  | nil => simp [dictInsert, dictLookup]
  | cons hd t ih =>
    obtain ⟨k', v'⟩ := hd
    by_cases h : k' = k
    · simp [dictInsert, dictLookup, h]
    · simp [dictInsert, dictLookup, h, ih]

theorem dictLookup_insert_ne {α β : Type} [DecidableEq α]
    (l : List (α × β)) (k k' : α) (v : β) (h : k ≠ k') :
    dictLookup (dictInsert l k v) k' = dictLookup l k' := by
  induction l with
  | nil => simp [dictInsert, dictLookup, h]
  | cons hd t ih =>
    obtain ⟨k₀, v₀⟩ := hd
    by_cases h₀ : k₀ = k
    · subst h₀
      simp [dictInsert, dictLookup, h]
    · simp [dictInsert, dictLookup, h₀, ih]

theorem dictLookup_eq_none_of_not_mem {α β : Type} [DecidableEq α]
    (l : List (α × β)) (k : α) (h : k ∉ l.map Prod.fst) :
    dictLookup l k = none := by
  induction l with
  | nil => simp [dictLookup]
  | cons hd t ih =>
    obtain ⟨k₀, v₀⟩ := hd
    simp only [List.map_cons, List.mem_cons] at h
    push_neg at h
    have hk : k₀ ≠ k := fun he => h.1 he.symm
    simp [dictLookup, hk, ih h.2]

theorem dictLookup_erase_self {α β : Type} [DecidableEq α]
    (l : List (α × β)) (k : α) (hnd : (l.map Prod.fst).Nodup) :
    dictLookup (dictErase l k) k = none := by
  induction l with
  | nil => simp [dictErase, dictLookup]
  | cons hd t ih =>
    obtain ⟨k₀, v₀⟩ := hd
    simp only [List.map_cons, List.nodup_cons] at hnd
    by_cases h₀ : k₀ = k
    · subst h₀
      simp only [dictErase, if_pos rfl]
      exact dictLookup_eq_none_of_not_mem t k₀ hnd.1
    · simp [dictErase, dictLookup, h₀]
      exact ih hnd.2

/-! ## MetricsCollector (`monitoring/metrics_collector.py`) -/

/-- `MetricsContext` dataclass. -/
structure MetricsContext where
  request_id : String
  user_id : String
  session_id : String
  start_time : ℚ
  end_time : Option ℚ := none
  llm_call_count : ℕ := 0
  llm_tokens_in : ℕ := 0
  llm_tokens_out : ℕ := 0
  tool_calls : List (String × ℕ) := []
  agent_calls : List (String × ℕ) := []
  guardrail_blocks : ℕ := 0
  errors : List String := []
  latency_ms : Option ℚ := none
  deriving Repr, DecidableEq

/-- `MetricsContext.complete`: stamp `end_time` and derive `latency_ms`. -/
def MetricsContext.complete (c : MetricsContext) (now : ℚ) : MetricsContext :=
  { c with end_time := some now, latency_ms := some ((now - c.start_time) * 1000) }

/-- The `context_dict` snapshot appended to `historical_metrics` on completion.
`timestamp` holds the raw `start_time` (the source renders it as an ISO string). -/
structure HistRecord where
  request_id : String
  user_id : String
  session_id : String
  timestamp : ℚ
  latency_ms : ℚ
  llm_call_count : ℕ
  llm_tokens_in : ℕ
  llm_tokens_out : ℕ
  tool_calls : List (String × ℕ)
  agent_calls : List (String × ℕ)
  guardrail_blocks : ℕ
  errors : List String
  success : Bool
  deriving Repr, DecidableEq

/-- In-memory state of `MetricsCollector` (directories / threads omitted). -/
structure MetricsCollector where
  active_contexts : List (String × MetricsContext) := []
  historical_metrics : List HistRecord := []
  max_historical : ℕ := 1000
  total_requests : ℕ := 0
  successful_requests : ℕ := 0
  failed_requests : ℕ := 0
  total_latency_ms : ℚ := 0
  tool_usage : List (String × ℕ) := []
  agent_usage : List (String × ℕ) := []
  guardrail_blocks : ℕ := 0
  deriving Repr, DecidableEq

/-- Freshly constructed collector (`MetricsCollector.__init__`). -/
def MetricsCollector.init : MetricsCollector := {}

/-- `start_request`: create a context (overwriting any active context with the
same id) and count the request. Returns the request id. -/
def start_request (s : MetricsCollector) (request_id user_id session_id : String)
    (now : ℚ) : String × MetricsCollector :=
  let context : MetricsContext :=
    { request_id := request_id, user_id := user_id, session_id := session_id,
      start_time := now }
  (request_id,
   { s with active_contexts := dictInsert s.active_contexts request_id context,
            total_requests := s.total_requests + 1 })

/-- `record_llm_call`. -/
def record_llm_call (s : MetricsCollector) (request_id : String)
    (tokens_in tokens_out : ℕ) : MetricsCollector :=
  match dictLookup s.active_contexts request_id with
  | none => s
  | some context =>
    let context := { context with llm_call_count := context.llm_call_count + 1,
                                  llm_tokens_in := context.llm_tokens_in + tokens_in,
                                  llm_tokens_out := context.llm_tokens_out + tokens_out }
    { s with active_contexts := dictInsert s.active_contexts request_id context }

/-- `record_tool_call`: mutates the context and mirrors into `tool_usage`. -/
def record_tool_call (s : MetricsCollector) (request_id tool_name : String) :
    MetricsCollector :=
  match dictLookup s.active_contexts request_id with
  | none => s
  | some context =>
    let context := { context with tool_calls := bump context.tool_calls tool_name }
    { s with active_contexts := dictInsert s.active_contexts request_id context,
             tool_usage := bump s.tool_usage tool_name }

/-- `record_agent_call`. -/
def record_agent_call (s : MetricsCollector) (request_id agent_name : String) :
    MetricsCollector :=
  match dictLookup s.active_contexts request_id with
  | none => s
  | some context =>
    let context := { context with agent_calls := bump context.agent_calls agent_name }
    { s with active_contexts := dictInsert s.active_contexts request_id context,
             agent_usage := bump s.agent_usage agent_name }

/-- `record_guardrail_block`. -/
def record_guardrail_block (s : MetricsCollector) (request_id reason : String) :
    MetricsCollector :=
  match dictLookup s.active_contexts request_id with
  | none => s
  | some context =>
    let context := { context with guardrail_blocks := context.guardrail_blocks + 1 }
    { s with active_contexts := dictInsert s.active_contexts request_id context,
             guardrail_blocks := s.guardrail_blocks + 1 }

/-- `record_error`. -/
def record_error (s : MetricsCollector) (request_id error_message : String) :
    MetricsCollector :=
  match dictLookup s.active_contexts request_id with
  | none => s
  | some context =>
    let context := { context with errors := context.errors ++ [error_message] }
    { s with active_contexts := dictInsert s.active_contexts request_id context }

/-- Append to the bounded history: `append` then `pop(0)` when over capacity. -/
def appendCapped {α : Type} (maxLen : ℕ) (l : List α) (x : α) : List α :=
  let h := l ++ [x]
  if maxLen < h.length then h.drop 1 else h

/-- The `context_dict` built by `complete_request` from the completed context
(`latency_ms` is always set by `MetricsContext.complete` before this point). -/
def completionRecord (context : MetricsContext) (success : Bool) : HistRecord :=
  { request_id := context.request_id, user_id := context.user_id,
    session_id := context.session_id, timestamp := context.start_time,
    latency_ms := context.latency_ms.getD 0, llm_call_count := context.llm_call_count,
    llm_tokens_in := context.llm_tokens_in, llm_tokens_out := context.llm_tokens_out,
    tool_calls := context.tool_calls, agent_calls := context.agent_calls,
    guardrail_blocks := context.guardrail_blocks, errors := context.errors,
    success := success }

/-- `complete_request`: pop the context, stamp latency, roll aggregates,
append the snapshot to the capped history; `none` when the id is not active. -/
def complete_request (s : MetricsCollector) (request_id : String) (success : Bool)
    (now : ℚ) : Option MetricsContext × MetricsCollector :=
  match dictLookup s.active_contexts request_id with
  | none => (none, s)
  | some context₀ =>
    let context := context₀.complete now
    (some context,
     { s with active_contexts := dictErase s.active_contexts request_id,
              successful_requests :=
                if success then s.successful_requests + 1 else s.successful_requests,
              failed_requests :=
                if success then s.failed_requests else s.failed_requests + 1,
              total_latency_ms := s.total_latency_ms + context.latency_ms.getD 0,
              historical_metrics := appendCapped s.max_historical s.historical_metrics
                (completionRecord context success) })

/-- Snapshot returned by `get_current_metrics`. -/
structure CurrentMetrics where
  total_requests : ℕ
  successful_requests : ℕ
  failed_requests : ℕ
  success_rate : ℚ
  average_latency_ms : ℚ
  top_tools : List (String × ℕ)
  top_agents : List (String × ℕ)
  guardrail_blocks : ℕ
  active_requests : ℕ
  deriving Repr, DecidableEq

/-- `Counter.most_common(n)`: entries sorted by count descending, first `n`. -/
def mostCommon (l : List (String × ℕ)) (n : ℕ) : List (String × ℕ) :=
  (l.insertionSort (fun a b => b.2 ≤ a.2)).take n

/-- `get_current_metrics`. -/
def get_current_metrics (s : MetricsCollector) : CurrentMetrics :=
  let avg_latency : ℚ :=
    if 0 < s.total_requests then s.total_latency_ms / (s.total_requests : ℚ) else 0
  { total_requests := s.total_requests,
    successful_requests := s.successful_requests,
    failed_requests := s.failed_requests,
    success_rate := (s.successful_requests : ℚ) / ((max 1 s.total_requests : ℕ) : ℚ),
    average_latency_ms := avg_latency,
    top_tools := mostCommon s.tool_usage 5,
    top_agents := mostCommon s.agent_usage 5,
    guardrail_blocks := s.guardrail_blocks,
    active_requests := s.active_contexts.length }


/-! ## PerformanceTracker (`monitoring/performance_tracker.py`) -/

/-- Values stored in a trace's `metadata` dict. -/
inductive MetaVal where
  | str (s : String)
  | bool (b : Bool)
  | none
  deriving Repr, DecidableEq

/-- `PerformanceData` dataclass. -/
structure PerformanceData where
  name : String
  category : String
  start_time : ℚ
  end_time : Option ℚ := Option.none
  duration_ms : Option ℚ := Option.none
  metadata : List (String × MetaVal) := []
  parent : Option String := Option.none
  deriving Repr, DecidableEq

/-- `PerformanceData.complete`. -/
def PerformanceData.complete (t : PerformanceData) (now : ℚ) : PerformanceData :=
  { t with end_time := some now, duration_ms := some ((now - t.start_time) * 1000) }

/-- In-memory state of `PerformanceTracker` (directories / threads omitted). -/
structure PerformanceTracker where
  traces : List (String × PerformanceData) := []
  historical_data : List (String × List PerformanceData) := []
  thresholds : List (String × ℚ) := []
  deriving Repr, DecidableEq

/-- `set_threshold`. -/
def set_threshold (t : PerformanceTracker) (category : String) (threshold_ms : ℚ) :
    PerformanceTracker :=
  { t with thresholds := dictInsert t.thresholds category threshold_ms }

/-- Freshly constructed tracker: `__init__` registers four default thresholds. -/
def PerformanceTracker.init : PerformanceTracker :=
  let t : PerformanceTracker := {}
  let t := set_threshold t "api_request" 1000
  let t := set_threshold t "llm_call" 2000
  let t := set_threshold t "tool_execution" 500
  set_threshold t "database_query" 100

/-- The trace id built by `start_trace`:
`f"{name}_{int(time.time() * 1000)}_{hash(name) % 10000}"`.
`time.time()` is nonnegative, so `int` truncation agrees with the floor. -/
def traceId (name : String) (now : ℚ) (pyHash : String → ℕ) : String :=
  name ++ "_" ++ toString ⌊now * 1000⌋ ++ "_" ++ toString (pyHash name % 10000)

/-- The open span recorded by `start_trace` (metadata holds the correlating
`request_id` entry followed by the caller metadata, as the source merges them). -/
def startSpan (name category : String) (request_id parent : Option String)
    (metadata : List (String × MetaVal)) (now : ℚ) : PerformanceData :=
  { name := name, category := category, start_time := now,
    metadata := ("request_id", match request_id with
                   | some r => MetaVal.str r
                   | none => MetaVal.none) :: metadata,
    parent := parent }

/-- `start_trace`. -/
def start_trace (t : PerformanceTracker) (name category : String)
    (request_id : Option String) (parent : Option String)
    (metadata : List (String × MetaVal)) (now : ℚ) (pyHash : String → ℕ) :
    String × PerformanceTracker :=
  let trace_id := traceId name now pyHash
  let data := startSpan name category request_id parent metadata now
  (trace_id, { t with traces := dictInsert t.traces trace_id data })

/-- `end_trace`: pop the open span, stamp duration, record `success`, append to
the per-category history capped at 1000. The threshold check only logs. -/
def end_trace (t : PerformanceTracker) (trace_id : String) (success : Bool)
    (now : ℚ) : Option PerformanceData × PerformanceTracker :=
  match dictLookup t.traces trace_id with
  | Option.none => (Option.none, t)
  | some trace₀ =>
    let trace := trace₀.complete now
    let trace := { trace with metadata := trace.metadata ++ [("success", MetaVal.bool success)] }
    let category := trace.category
    let existing := (dictLookup t.historical_data category).getD []
    let hist := appendCapped 1000 existing trace
    (some trace,
     { t with traces := dictErase t.traces trace_id,
              historical_data := dictInsert t.historical_data category hist })

/-- Per-category statistics returned by `get_performance_metrics`. -/
structure CategoryMetrics where
  count : ℕ
  average_ms : ℚ
  median_ms : ℚ
  p95_ms : Option ℚ
  min_ms : ℚ
  max_ms : ℚ
  threshold_ms : Option ℚ
  threshold_exceeded_count : ℕ
  deriving Repr, DecidableEq

/-- Python `sorted` on a list of numbers: stable ascending sort. -/
def sortAsc (l : List ℚ) : List ℚ :=
  l.insertionSort (fun a b => a ≤ b)

/-- `statistics.median`: middle element for odd length, mean of the two middle
elements for even length (of the ascending-sorted list). -/
def medianOf (l : List ℚ) : ℚ :=
  let s := sortAsc l
  let n := l.length
  if n % 2 = 1 then s.getD (n / 2) 0
  else ((s.getD (n / 2 - 1) 0) + s.getD (n / 2) 0) / 2

/-- The zero-based p95 index `int(len(durations) * 0.95)`. For every count that
can occur here (the per-category history is capped at 1000) the double-precision
product `count * 0.95` truncates to exactly `⌊95 * count / 100⌋`, so the float
is modelled by exact natural arithmetic. -/
def p95Index (count : ℕ) : ℕ := count * 95 / 100

/-- The per-category stats dict (`None` when the category has no durations). -/
def categoryMetrics (thresholds : List (String × ℚ)) (category : String)
    (traces : List PerformanceData) : Option CategoryMetrics :=
  match h : traces.filterMap (fun t => t.duration_ms) with
  | [] => Option.none
  | d :: rest =>
    let durations := d :: rest
    some
      { count := durations.length,
        average_ms := durations.sum / (durations.length : ℚ),
        median_ms := medianOf durations,
        p95_ms := if 20 ≤ durations.length then (sortAsc durations)[p95Index durations.length]?
                  else Option.none,
        min_ms := rest.foldl min d,
        max_ms := rest.foldl max d,
        threshold_ms := dictLookup thresholds category,
        threshold_exceeded_count :=
          match dictLookup thresholds category with
          | some th => (durations.filter (fun x => th < x)).length
          | Option.none => 0 }

/-- `get_performance_metrics`: one entry per category with at least one
completed duration (categories with no spans or no durations are skipped). -/
def get_performance_metrics (t : PerformanceTracker) : List (String × CategoryMetrics) :=
  t.historical_data.filterMap (fun ct =>
    (categoryMetrics t.thresholds ct.1 ct.2).map (fun m => (ct.1, m)))

/-! ## AlertSystem (`monitoring/alerts.py`) -/

/-- `AlertSeverity` enum. -/
inductive AlertSeverity where
  | info
  | warning
  | error
  | critical
  deriving Repr, DecidableEq

/-- `AlertSeverity.value`. -/
def AlertSeverity.value : AlertSeverity → String
  | .info => "info"
  | .warning => "warning"
  | .error => "error"
  | .critical => "critical"

/-- `AlertType` enum. -/
inductive AlertType where
  | performance
  | error_rate
  | guardrail
  | usage
  | security
  | system
  deriving Repr, DecidableEq

/-- `AlertType.value`. -/
def AlertType.value : AlertType → String
  | .performance => "performance"
  | .error_rate => "error_rate"
  | .guardrail => "guardrail"
  | .usage => "usage"
  | .security => "security"
  | .system => "system"

/-- `datetime.now()` as consumed by the alert system: the two `strftime`
renderings and the ISO form, passed in pre-rendered since the system only ever
embeds them in strings. `fmtSec` is `strftime("%Y%m%d%H%M%S")`, `fmtHour` is
`strftime("%Y%m%d_%H")`, `iso` is `isoformat()`. -/
structure PyDateTime where
  fmtSec : String
  fmtHour : String
  iso : String
  deriving Repr, DecidableEq

/-- The `details` dict attached to an alert. Only the keys the system itself
writes and reads back are modelled; the nested `"metrics"` sub-dict written by
the performance detector is never read back and is omitted. -/
structure AlertDetails where
  category : Option String := none
  p95_ms : Option ℚ := none
  threshold_ms : Option ℚ := none
  error_rate : Option ℚ := none
  threshold : Option ℚ := none
  failed_requests : Option ℕ := none
  total_requests : Option ℕ := none
  deriving Repr, DecidableEq

/-- An alert record (the dict built by `trigger_alert`). `type` and `severity`
hold the enums' `.value` strings, as in the source. -/
structure Alert where
  id : String
  type : String
  severity : String
  message : String
  details : AlertDetails
  timestamp : String
  status : String
  resolved_at : Option String := none
  resolution_message : Option String := none
  deriving Repr, DecidableEq

/-- In-memory state of `AlertSystem` (directories / threads / handlers omitted:
the default handlers only log). Thresholds are the nested
`Dict[AlertType, Dict[str, number]]`. -/
structure AlertSystem where
  thresholds : List (AlertType × List (String × ℚ)) := []
  active_alerts : List (String × Alert) := []
  resolved_alerts : List Alert := []
  deriving Repr, DecidableEq

/-- Freshly constructed alert system with the default threshold table. -/
def AlertSystem.init : AlertSystem :=
  { thresholds :=
      [(.performance, [("api_request_ms", 2000), ("llm_call_ms", 5000),
                       ("tool_execution_ms", 1000)]),
       (.error_rate, [("max_error_rate", 1/20), ("window_size", 100)]),
       (.guardrail, [("max_block_rate", 1/10)]),
       (.usage, [("max_requests_per_minute", 100), ("max_tokens_per_minute", 10000)])] }

/-- `AlertSystem.set_threshold`. -/
def alert_set_threshold (s : AlertSystem) (alert_type : AlertType) (key : String)
    (value : ℚ) : AlertSystem :=
  let table := (dictLookup s.thresholds alert_type).getD []
  { s with thresholds := dictInsert s.thresholds alert_type (dictInsert table key value) }

/-- The alert id built by `trigger_alert`:
`f"{alert_type.value}_{now.strftime(chr(37) + Y..)}_{hash(message) % 10000}"`. -/
def alertId (alert_type : AlertType) (now : PyDateTime) (message : String)
    (pyHash : String → ℕ) : String :=
  alert_type.value ++ "_" ++ now.fmtSec ++ "_" ++ toString (pyHash message % 10000)

/-- `trigger_alert`: build the record and insert it into the active set under
its id. Handler dispatch and the file write have no effect on this state. -/
def trigger_alert (s : AlertSystem) (alert_type : AlertType)
    (severity : AlertSeverity) (message : String) (details : AlertDetails)
    (now : PyDateTime) (pyHash : String → ℕ) : String × AlertSystem :=
  let alert_id := alertId alert_type now message pyHash
  let alert : Alert :=
    { id := alert_id, type := alert_type.value, severity := severity.value,
      message := message, details := details, timestamp := now.iso,
      status := "active" }
  (alert_id, { s with active_alerts := dictInsert s.active_alerts alert_id alert })

/-- The cap applied to the resolved-alerts archive after an append:
`pop(0)` when the list exceeds 1000 entries. -/
def capResolved (l : List Alert) : List Alert :=
  if 1000 < l.length then l.drop 1 else l

/-- `resolve_alert`: `False` if the id is not active; otherwise move the alert
to the resolved list (capped at 1000, oldest dropped) with stamps. -/
def resolve_alert (s : AlertSystem) (alert_id : String)
    (resolution_message : String) (now : PyDateTime) : Bool × AlertSystem :=
  match dictLookup s.active_alerts alert_id with
  | none => (false, s)
  | some alert =>
    let alert := { alert with status := "resolved", resolved_at := some now.iso,
                              resolution_message := some resolution_message }
    (true,
     { s with active_alerts := dictErase s.active_alerts alert_id,
              resolved_alerts := capResolved (s.resolved_alerts ++ [alert]) })

/-- The dedup key the performance detector checks against the active set:
`f"performance_{category}_{now.strftime(chr(37) + Ymd_H)}"`. -/
def perfAlertKey (category : String) (now : PyDateTime) : String :=
  "performance_" ++ category ++ "_" ++ now.fmtHour

/-- Message of a performance alert (float `.2f` rendering approximated by the
exact rational rendering; no claim inspects message text). -/
def perfAlertMessage (category : String) (p95_ms threshold_ms : ℚ) : String :=
  "Performance degradation in " ++ category ++ ": p95 latency " ++ toString p95_ms
    ++ "ms exceeds threshold " ++ toString threshold_ms ++ "ms"

/-- One iteration of the loop body of `_check_performance_alerts` for a single
`(category, metrics)` entry. Python truthiness of `p95_ms` (`None` and `0.0`
are falsy) is modelled explicitly. -/
def checkPerformanceStep (now : PyDateTime) (pyHash : String → ℕ)
    (st : AlertSystem) (entry : String × CategoryMetrics) : AlertSystem :=
  let category := entry.1
  let metrics := entry.2
  let threshold_key := category ++ "_ms"
  match dictLookup st.thresholds AlertType.performance with
  | none => st
  | some perfTable =>
    match dictLookup perfTable threshold_key with
    | none => st
    | some threshold_ms =>
      match metrics.p95_ms with
      | none => st
      | some p95_ms =>
        if p95_ms ≠ 0 ∧ p95_ms > threshold_ms then
          let alert_key := perfAlertKey category now
          if (dictLookup st.active_alerts alert_key).isSome then st
          else
            (trigger_alert st .performance .warning
              (perfAlertMessage category p95_ms threshold_ms)
              { category := some category, p95_ms := some p95_ms,
                threshold_ms := some threshold_ms } now pyHash).2
        else st

/-- `_check_performance_alerts`: fold the detector over the tracker's current
per-category metrics. -/
def check_performance_alerts (s : AlertSystem) (tracker : PerformanceTracker)
    (now : PyDateTime) (pyHash : String → ℕ) : AlertSystem :=
  (get_performance_metrics tracker).foldl (checkPerformanceStep now pyHash) s

/-- Message of an error-rate alert (percent rendering approximated). -/
def errorRateMessage (error_rate max_rate : ℚ) : String :=
  "High error rate: " ++ toString error_rate ++ " exceeds threshold " ++ toString max_rate

/-- `_check_error_rate_alerts`. -/
def check_error_rate_alerts (s : AlertSystem) (collector : MetricsCollector)
    (now : PyDateTime) (pyHash : String → ℕ) : AlertSystem :=
  let current := get_current_metrics collector
  match dictLookup s.thresholds AlertType.error_rate with
  | none => s
  | some errTable =>
    let max_rate := (dictLookup errTable "max_error_rate").getD (1/20)
    let error_rate : ℚ := (current.failed_requests : ℚ) / ((max 1 current.total_requests : ℕ) : ℚ)
    if error_rate > max_rate ∧ 10 ≤ current.total_requests then
      let alert_key := "error_rate_" ++ now.fmtHour
      if (dictLookup s.active_alerts alert_key).isSome then s
      else
        (trigger_alert s .error_rate .error (errorRateMessage error_rate max_rate)
          { error_rate := some error_rate, threshold := some max_rate,
            failed_requests := some current.failed_requests,
            total_requests := some current.total_requests } now pyHash).2
    else s

/-- The auto-resolution condition for one active alert: a `performance` alert
whose recorded category is truthy (present and non-empty, matching the
source's `if category:` guard) and whose current p95 and recorded threshold
are both truthy (present and nonzero), with p95 strictly below the threshold. -/
def autoResolveCond (alert : Alert) (pm : List (String × CategoryMetrics)) : Bool :=
  if alert.type = AlertType.performance.value then
    match alert.details.category with
    | none => false
    | some category =>
      if category = "" then false
      else
        match dictLookup pm category with
        | none => false
        | some m =>
          match m.p95_ms, alert.details.threshold_ms with
          | some p95_ms, some threshold_ms =>
            decide (p95_ms ≠ 0 ∧ threshold_ms ≠ 0 ∧ p95_ms < threshold_ms)
          | _, _ => false
  else false

/-- The generated resolution message for an auto-resolved alert. -/
def autoResolveMessage (alert : Alert) (pm : List (String × CategoryMetrics)) : String :=
  match alert.details.category with
  | none => ""
  | some category =>
    let p95_ms := (dictLookup pm category).bind (fun m => m.p95_ms)
    "Performance recovered: " ++ category ++ " p95 latency now "
      ++ toString (p95_ms.getD 0) ++ "ms (below threshold "
      ++ toString (alert.details.threshold_ms.getD 0) ++ "ms)"

/-- Loop body of `_auto_resolve_alerts` for one snapshotted active entry. -/
def autoResolveStep (pm : List (String × CategoryMetrics)) (now : PyDateTime)
    (st : AlertSystem) (entry : String × Alert) : AlertSystem :=
  if autoResolveCond entry.2 pm then
    (resolve_alert st entry.1 (autoResolveMessage entry.2 pm) now).2
  else st

/-- `_auto_resolve_alerts`: sweep over a snapshot of the active set
(`list(self.active_alerts.items())`), resolving each alert whose condition
holds. The source re-reads `get_performance_metrics()` per alert; the tracker
does not change during the sweep, so the metrics are computed once. -/
def auto_resolve_alerts (s : AlertSystem) (tracker : PerformanceTracker)
    (now : PyDateTime) : AlertSystem :=
  s.active_alerts.foldl (autoResolveStep (get_performance_metrics tracker) now) s

/-- One cycle of `_background_monitor`: the two detectors, then auto-resolution. -/
def monitorCycle (s : AlertSystem) (tracker : PerformanceTracker)
    (collector : MetricsCollector) (now : PyDateTime) (pyHash : String → ℕ) :
    AlertSystem :=
  let s := check_performance_alerts s tracker now pyHash
  let s := check_error_rate_alerts s collector now pyHash
  auto_resolve_alerts s tracker now

/-! ## Support lemmas -/

theorem dictLookup_cons_self {α β : Type} [DecidableEq α]
    (k : α) (v : β) (t : List (α × β)) : dictLookup ((k, v) :: t) k = some v := by
  simp [dictLookup]

theorem dictLookup_append_not_mem {α β : Type} [DecidableEq α]
    (l₁ l₂ : List (α × β)) (k : α) (h : k ∉ l₁.map Prod.fst) :
    dictLookup (l₁ ++ l₂) k = dictLookup l₂ k := by
  induction l₁ with
  | nil => simp
  | cons hd t ih =>
    obtain ⟨k₀, v₀⟩ := hd
    simp only [List.map_cons, List.mem_cons] at h
    push_neg at h
    have hk : k₀ ≠ k := fun he => h.1 he.symm
    simp [dictLookup, hk, ih h.2]

theorem dictErase_append_not_mem {α β : Type} [DecidableEq α]
    (l₁ l₂ : List (α × β)) (k : α) (h : k ∉ l₁.map Prod.fst) :
    dictErase (l₁ ++ l₂) k = l₁ ++ dictErase l₂ k := by
  induction l₁ with
  | nil => simp
  | cons hd t ih =>
    obtain ⟨k₀, v₀⟩ := hd
    simp only [List.map_cons, List.mem_cons] at h
    push_neg at h
    have hk : k₀ ≠ k := fun he => h.1 he.symm
    simp [dictErase, hk, ih h.2]

theorem appendCapped_def {α : Type} (m : ℕ) (l : List α) (x : α) :
    appendCapped m l x =
      if m < (l ++ [x]).length then (l ++ [x]).drop 1 else l ++ [x] := rfl

theorem appendCapped_eq_append {α : Type} (m : ℕ) (l : List α) (x : α)
    (hm : 0 < m) : ∃ rest, appendCapped m l x = rest ++ [x] := by
  rw [appendCapped_def]
  by_cases h : m < (l ++ [x]).length
  · refine ⟨l.drop 1, ?_⟩
    have h1 : 1 ≤ l.length := by
      simp only [List.length_append, List.length_singleton] at h
      omega
    rw [if_pos h, List.drop_append_of_le_length h1]
  · exact ⟨l, by rw [if_neg h]⟩

theorem foldl_appendCapped {α : Type} (m : ℕ) :
    ∀ (xs acc : List α), acc.length ≤ m →
      List.foldl (appendCapped m) acc xs = (acc ++ xs).drop (acc.length + xs.length - m) := by
  intro xs
  induction xs with
  | nil =>
    intro acc hacc
    simp [Nat.sub_eq_zero_of_le hacc]
  | cons x xs ih =>
    intro acc hacc
    simp only [List.foldl_cons]
    by_cases hlt : acc.length < m
    · have hcond : ¬ m < (acc ++ [x]).length := by
        simp only [List.length_append, List.length_singleton]; omega
      rw [appendCapped_def, if_neg hcond, ih (acc ++ [x]) (by
        simp only [List.length_append, List.length_singleton]; omega)]
      have hidx : (acc ++ [x]).length + xs.length - m = acc.length + (x :: xs).length - m := by
        simp only [List.length_append, List.length_singleton, List.length_cons,
          List.length_nil]
        omega
      rw [hidx, List.append_assoc, List.singleton_append]
    · have heq : acc.length = m := le_antisymm hacc (le_of_not_lt hlt)
      have hcond : m < (acc ++ [x]).length := by
        simp only [List.length_append, List.length_singleton]; omega
      have hlen : ((acc ++ [x]).drop 1).length ≤ m := by
        simp only [List.length_drop, List.length_append, List.length_singleton]
        omega
      rw [appendCapped_def, if_pos hcond, ih _ hlen]
      have h1 : (1 : ℕ) ≤ (acc ++ [x]).length := by
        simp only [List.length_append, List.length_singleton]; omega
      rw [← List.drop_append_of_le_length h1, List.drop_drop]
      have hidx : 1 + (((acc ++ [x]).drop 1).length + xs.length - m)
          = acc.length + (x :: xs).length - m := by
        simp only [List.length_drop, List.length_append, List.length_singleton,
          List.length_cons, List.length_nil]
        omega
      rw [hidx, List.append_assoc, List.singleton_append]

theorem complete_request_not_found (s : MetricsCollector) (r : String)
    (b : Bool) (t : ℚ) (h : dictLookup s.active_contexts r = none) :
    complete_request s r b t = (none, s) := by
  unfold complete_request
  rw [h]

/-! ## Claim theorems -/

/-- C10: `get_current_metrics` reports `average_latency_ms` as
`total_latency_ms / total_requests` (0 when no request was ever started), where
`total_requests` counts every started request while `total_latency_ms` only
accumulates completed latencies; concretely, after one completed request of
latency `(t1 - t0) * 1000` and one still-active request, the reported average
is half that latency (not the full latency), and `success_rate` divides the one
successful completion by the two started requests. -/
theorem C10_average_over_started_requests :
    (∀ s : MetricsCollector,
      (get_current_metrics s).average_latency_ms =
        if 0 < s.total_requests then s.total_latency_ms / (s.total_requests : ℚ) else 0) ∧
    (∀ (r1 r2 u1 u2 v1 v2 : String) (t0 t1 t2 : ℚ),
      (get_current_metrics ((start_request ((complete_request
            ((start_request MetricsCollector.init r1 u1 v1 t0).2) r1 true t1).2)
            r2 u2 v2 t2).2)).total_requests = 2 ∧
      (get_current_metrics ((start_request ((complete_request
            ((start_request MetricsCollector.init r1 u1 v1 t0).2) r1 true t1).2)
            r2 u2 v2 t2).2)).average_latency_ms = ((t1 - t0) * 1000) / 2 ∧
      (get_current_metrics ((start_request ((complete_request
            ((start_request MetricsCollector.init r1 u1 v1 t0).2) r1 true t1).2)
            r2 u2 v2 t2).2)).success_rate = 1 / 2 ∧
      (get_current_metrics ((start_request ((complete_request
            ((start_request MetricsCollector.init r1 u1 v1 t0).2) r1 true t1).2)
            r2 u2 v2 t2).2)).successful_requests = 1 ∧
      (get_current_metrics ((start_request ((complete_request
            ((start_request MetricsCollector.init r1 u1 v1 t0).2) r1 true t1).2)
            r2 u2 v2 t2).2)).active_requests = 1) := by
  constructor
  · intro s
    rfl
  · intro r1 r2 u1 u2 v1 v2 t0 t1 t2
    simp only [MetricsCollector.init, start_request, complete_request,
      get_current_metrics, dictInsert, dictErase, dictLookup, if_pos rfl,
      MetricsContext.complete, appendCapped]
    norm_num

/-- C7: every `record_*` call against a request id that is not active is a
silent no-op returning the collector state unchanged. -/
theorem C7_record_unknown_id_noop (s : MetricsCollector) (r : String)
    (tool_name agent_name reason message : String) (tokens_in tokens_out : ℕ)
    (h : dictLookup s.active_contexts r = none) :
    record_tool_call s r tool_name = s ∧
    record_agent_call s r agent_name = s ∧
    record_llm_call s r tokens_in tokens_out = s ∧
    record_guardrail_block s r reason = s ∧
    record_error s r message = s := by
  refine ⟨?_, ?_, ?_, ?_, ?_⟩ <;>
    simp [record_tool_call, record_agent_call, record_llm_call,
      record_guardrail_block, record_error, h]

/-- Witness for C7 at a concrete collector with no active context. -/
theorem C7_record_unknown_id_noop_witness :
    record_tool_call MetricsCollector.init "r9" "get_balance" = MetricsCollector.init ∧
    record_agent_call MetricsCollector.init "r9" "teller" = MetricsCollector.init ∧
    record_llm_call MetricsCollector.init "r9" 5 7 = MetricsCollector.init ∧
    record_guardrail_block MetricsCollector.init "r9" "blocked" = MetricsCollector.init ∧
    record_error MetricsCollector.init "r9" "boom" = MetricsCollector.init :=
  C7_record_unknown_id_noop MetricsCollector.init "r9" "get_balance" "teller"
    "blocked" "boom" 5 7 rfl

/-- C6: when the active-context keys are distinct, a second `complete_request`
for an id that was just completed returns the not-found sentinel `none` and the
whole collector state (aggregates and history included) unchanged. -/
theorem C6_double_complete_not_found (s : MetricsCollector) (r : String)
    (b1 b2 : Bool) (t1 t2 : ℚ)
    (hnd : (s.active_contexts.map Prod.fst).Nodup)
    (hactive : (dictLookup s.active_contexts r).isSome) :
    complete_request ((complete_request s r b1 t1).2) r b2 t2 =
      (none, (complete_request s r b1 t1).2) := by
  obtain ⟨c, hc⟩ := Option.isSome_iff_exists.mp hactive
  have h1 : (complete_request s r b1 t1).2.active_contexts = dictErase s.active_contexts r := by
    unfold complete_request
    rw [hc]
  have h2 : dictLookup ((complete_request s r b1 t1).2).active_contexts r = none := by
    rw [h1]
    exact dictLookup_erase_self s.active_contexts r hnd
  exact complete_request_not_found _ r b2 t2 h2

/-- Witness for C6 at a collector with a single active context. -/
theorem C6_double_complete_not_found_witness :
    (((start_request MetricsCollector.init "r1" "u" "s" 0).2).active_contexts.map
        Prod.fst).Nodup ∧
    (dictLookup ((start_request MetricsCollector.init "r1" "u" "s" 0).2).active_contexts
        "r1").isSome ∧
    complete_request ((complete_request ((start_request MetricsCollector.init "r1" "u" "s" 0).2)
        "r1" true 1).2) "r1" true 2 =
      (none, (complete_request ((start_request MetricsCollector.init "r1" "u" "s" 0).2)
        "r1" true 1).2) :=
  ⟨by decide, by decide,
   C6_double_complete_not_found ((start_request MetricsCollector.init "r1" "u" "s" 0).2)
     "r1" true true 1 2 (by decide) (by decide)⟩

/-- The ascending sort `sorted(durations)` is sorted. -/
theorem sortAsc_sorted (l : List ℚ) : (sortAsc l).Sorted (fun a b => a ≤ b) :=
  List.sorted_insertionSort _ l

/-- The ascending sort `sorted(durations)` is a permutation of its input. -/
theorem sortAsc_perm (l : List ℚ) : (sortAsc l).Perm l :=
  List.perm_insertionSort _ l

theorem sortAsc_length (l : List ℚ) : (sortAsc l).length = l.length :=
  (sortAsc_perm l).length_eq

/-- Modelled from the spec wording, for comparison with the code: sort the
durations ascending; with fewer than 20 samples p95 is absent; otherwise it is
the value at zero-based index floor(0.95 times count), which over the naturals
is `count * 95 / 100`. -/
def p95SpecOf (ds : List ℚ) : Option ℚ :=
  if 20 ≤ ds.length then (sortAsc ds)[p95Index ds.length]? else none

/-- C2: every per-category entry of `get_performance_metrics` reports `p95_ms`
as absent when the category has fewer than 20 completed-span durations and as
the element at zero-based index floor(0.95 times count) of the ascending-sorted
durations otherwise — exactly the spec formula `p95SpecOf`. -/
theorem C2_p95_semantics (t : PerformanceTracker) (category : String)
    (m : CategoryMetrics) (h : (category, m) ∈ get_performance_metrics t) :
    ∃ traces, (category, traces) ∈ t.historical_data ∧
      m.count = (traces.filterMap (fun tr => tr.duration_ms)).length ∧
      m.p95_ms = p95SpecOf (traces.filterMap (fun tr => tr.duration_ms)) ∧
      ((traces.filterMap (fun tr => tr.duration_ms)).length < 20 → m.p95_ms = none) ∧
      (20 ≤ (traces.filterMap (fun tr => tr.duration_ms)).length →
        p95Index (traces.filterMap (fun tr => tr.duration_ms)).length <
            (sortAsc (traces.filterMap (fun tr => tr.duration_ms))).length ∧
          m.p95_ms = some ((sortAsc (traces.filterMap (fun tr => tr.duration_ms))).getD
            (p95Index (traces.filterMap (fun tr => tr.duration_ms)).length) 0)) := by
  unfold get_performance_metrics at h
  rw [List.mem_filterMap] at h
  obtain ⟨⟨c1, traces⟩, hct, hmap⟩ := h
  rw [Option.map_eq_some'] at hmap
  obtain ⟨m', hm', heq⟩ := hmap
  obtain ⟨rfl, rfl⟩ : c1 = category ∧ m' = m := by
    constructor <;> [exact congrArg Prod.fst heq; exact congrArg Prod.snd heq]
  refine ⟨traces, hct, ?_⟩
  unfold categoryMetrics at hm'
  split at hm'
  · exact absurd hm' (by simp)
  case _ d rest heq2 =>
    have hm'' := Option.some.inj hm'
    subst hm''
    rw [heq2]
    have hn : 0 < (d :: rest).length := by simp
    refine ⟨rfl, ?_, ?_, ?_⟩
    · rw [p95SpecOf]
    · intro hlt
      simp only [p95SpecOf]
      rw [if_neg (by omega)]
    · intro h20
      have hix : p95Index (d :: rest).length < (sortAsc (d :: rest)).length := by
        rw [sortAsc_length]
        simp only [p95Index]
        rw [Nat.div_lt_iff_lt_mul (by norm_num : (0 : ℕ) < 100)]
        have hlen : 0 < (d :: rest).length := by simp
        omega
      refine ⟨hix, ?_⟩
      simp only [if_pos h20]
      rw [List.getElem?_eq_getElem hix, List.getD_eq_getElem _ _ hix]

/-- Tracker with a single category holding 20 spans of durations 1..20 ms. -/
def tracker20 : PerformanceTracker :=
  { traces := [],
    historical_data := [("api",
      (List.range 20).map (fun i =>
        { name := "op", category := "api", start_time := 0, end_time := some 0,
          duration_ms := some ((i : ℚ) + 1), metadata := [], parent := none }))],
    thresholds := [] }

/-- The stats entry the tracker above reports for category `api`. -/
def cm20 : CategoryMetrics :=
  { count := 20, average_ms := 21/2, median_ms := 21/2, p95_ms := some 20,
    min_ms := 1, max_ms := 20, threshold_ms := none, threshold_exceeded_count := 0 }

set_option maxRecDepth 4000 in
set_option maxHeartbeats 1000000 in
/-- Witness for C2: with exactly 20 ascending durations 1..20 ms, the reported
p95 is the value at index 19, i.e. 20. -/
theorem C2_p95_semantics_witness :
    (("api", cm20) ∈ get_performance_metrics tracker20) ∧ cm20.p95_ms = some 20 ∧
    ∃ traces, ("api", traces) ∈ tracker20.historical_data ∧
      cm20.p95_ms = p95SpecOf (traces.filterMap (fun tr => tr.duration_ms)) := by
  have hmem : ("api", cm20) ∈ get_performance_metrics tracker20 := by decide
  obtain ⟨traces, htr, _, hspec, _, _⟩ := C2_p95_semantics tracker20 "api" cm20 hmem
  exact ⟨hmem, rfl, traces, htr, hspec⟩

/-! ### C5 machinery: sequences of record events -/

/-- One of the five `record_*` calls, with its arguments. -/
inductive RecEvent where
  | llm (request_id : String) (tokens_in tokens_out : ℕ)
  | tool (request_id tool_name : String)
  | agent (request_id agent_name : String)
  | guardrail (request_id reason : String)
  | error (request_id message : String)

/-- Apply one `record_*` call. -/
def applyRecEvent (s : MetricsCollector) : RecEvent → MetricsCollector
  | .llm r a b => record_llm_call s r a b
  | .tool r n => record_tool_call s r n
  | .agent r n => record_agent_call s r n
  | .guardrail r n => record_guardrail_block s r n
  | .error r n => record_error s r n

/-- Apply a sequence of `record_*` calls in order. -/
def applyRecEvents (s : MetricsCollector) (evs : List RecEvent) : MetricsCollector :=
  evs.foldl applyRecEvent s

theorem complete_request_found (s : MetricsCollector) (r : String) (b : Bool)
    (t : ℚ) (c : MetricsContext) (hc : dictLookup s.active_contexts r = some c) :
    complete_request s r b t = (some (c.complete t),
      { s with active_contexts := dictErase s.active_contexts r,
               successful_requests :=
                 if b then s.successful_requests + 1 else s.successful_requests,
               failed_requests :=
                 if b then s.failed_requests else s.failed_requests + 1,
               total_latency_ms := s.total_latency_ms + ((c.complete t).latency_ms.getD 0),
               historical_metrics := appendCapped s.max_historical s.historical_metrics
                 (completionRecord (c.complete t) b) }) := by
  unfold complete_request
  rw [hc]

theorem applyRecEvent_aggregates (s : MetricsCollector) (e : RecEvent) :
    (applyRecEvent s e).successful_requests = s.successful_requests ∧
    (applyRecEvent s e).failed_requests = s.failed_requests ∧
    (applyRecEvent s e).historical_metrics = s.historical_metrics ∧
    (applyRecEvent s e).max_historical = s.max_historical := by
  cases e with
  | llm r a b =>
    unfold applyRecEvent record_llm_call
    cases hdl : dictLookup s.active_contexts r <;> simp [hdl]
  | tool r n =>
    unfold applyRecEvent record_tool_call
    cases hdl : dictLookup s.active_contexts r <;> simp [hdl]
  | agent r n =>
    unfold applyRecEvent record_agent_call
    cases hdl : dictLookup s.active_contexts r <;> simp [hdl]
  | guardrail r n =>
    unfold applyRecEvent record_guardrail_block
    cases hdl : dictLookup s.active_contexts r <;> simp [hdl]
  | error r n =>
    unfold applyRecEvent record_error
    cases hdl : dictLookup s.active_contexts r <;> simp [hdl]

theorem applyRecEvents_aggregates (evs : List RecEvent) :
    ∀ s : MetricsCollector,
      (applyRecEvents s evs).successful_requests = s.successful_requests ∧
      (applyRecEvents s evs).failed_requests = s.failed_requests ∧
      (applyRecEvents s evs).historical_metrics = s.historical_metrics ∧
      (applyRecEvents s evs).max_historical = s.max_historical := by
  induction evs with
  | nil => intro s; exact ⟨rfl, rfl, rfl, rfl⟩
  | cons e evs ih =>
    intro s
    obtain ⟨h1, h2, h3, h4⟩ := applyRecEvent_aggregates s e
    obtain ⟨g1, g2, g3, g4⟩ := ih (applyRecEvent s e)
    exact ⟨g1.trans h1, g2.trans h2, g3.trans h3, g4.trans h4⟩

theorem dictLookup_insert_header (l : List (String × MetricsContext))
    (k r : String) (c c0 c1 : MetricsContext)
    (hr : dictLookup l r = some c) (hk0 : dictLookup l k = some c0)
    (hst : c1.start_time = c0.start_time) (hid : c1.request_id = c0.request_id) :
    ∃ c2, dictLookup (dictInsert l k c1) r = some c2 ∧
      c2.start_time = c.start_time ∧ c2.request_id = c.request_id := by
  by_cases hkr : k = r
  · subst hkr
    rw [hk0] at hr
    obtain rfl : c0 = c := Option.some.inj hr
    exact ⟨c1, dictLookup_insert_self l k c1, hst, hid⟩
  · exact ⟨c, by rw [dictLookup_insert_ne l k r c1 hkr]; exact hr, rfl, rfl⟩

theorem applyRecEvent_header (s : MetricsCollector) (e : RecEvent) (r : String)
    (c : MetricsContext) (hc : dictLookup s.active_contexts r = some c) :
    ∃ c2, dictLookup (applyRecEvent s e).active_contexts r = some c2 ∧
      c2.start_time = c.start_time ∧ c2.request_id = c.request_id := by
  cases e with
  | llm r2 a b =>
    simp only [applyRecEvent]
    unfold record_llm_call
    cases hdl : dictLookup s.active_contexts r2 with
    | none => exact ⟨c, hc, rfl, rfl⟩
    | some c0 => exact dictLookup_insert_header _ r2 r c c0 _ hc hdl rfl rfl
  | tool r2 n =>
    simp only [applyRecEvent]
    unfold record_tool_call
    cases hdl : dictLookup s.active_contexts r2 with
    | none => exact ⟨c, hc, rfl, rfl⟩
    | some c0 => exact dictLookup_insert_header _ r2 r c c0 _ hc hdl rfl rfl
  | agent r2 n =>
    simp only [applyRecEvent]
    unfold record_agent_call
    cases hdl : dictLookup s.active_contexts r2 with
    | none => exact ⟨c, hc, rfl, rfl⟩
    | some c0 => exact dictLookup_insert_header _ r2 r c c0 _ hc hdl rfl rfl
  | guardrail r2 n =>
    simp only [applyRecEvent]
    unfold record_guardrail_block
    cases hdl : dictLookup s.active_contexts r2 with
    | none => exact ⟨c, hc, rfl, rfl⟩
    | some c0 => exact dictLookup_insert_header _ r2 r c c0 _ hc hdl rfl rfl
  | error r2 n =>
    simp only [applyRecEvent]
    unfold record_error
    cases hdl : dictLookup s.active_contexts r2 with
    | none => exact ⟨c, hc, rfl, rfl⟩
    | some c0 => exact dictLookup_insert_header _ r2 r c c0 _ hc hdl rfl rfl

theorem applyRecEvents_header (evs : List RecEvent) :
    ∀ (s : MetricsCollector) (r : String) (c : MetricsContext),
      dictLookup s.active_contexts r = some c →
      ∃ c2, dictLookup (applyRecEvents s evs).active_contexts r = some c2 ∧
        c2.start_time = c.start_time ∧ c2.request_id = c.request_id := by
  induction evs with
  | nil => intro s r c hc; exact ⟨c, hc, rfl, rfl⟩
  | cons e evs ih =>
    intro s r c hc
    obtain ⟨c1, h1, hst1, hid1⟩ := applyRecEvent_header s e r c hc
    obtain ⟨c2, h2, hst2, hid2⟩ := ih (applyRecEvent s e) r c1 h1
    exact ⟨c2, h2, hst2.trans hst1, hid2.trans hid1⟩

/-- C5: for a `start_request` followed by any sequence of `record_*` calls and
one `complete_request` on the same id, the completion succeeds, the returned
context and the appended historical record carry
`latency_ms = (end_time - start_time) * 1000`, and exactly one of the
success/failure counters increments (their sum grows by exactly one). -/
theorem C5_latency_and_counter_increment (s0 : MetricsCollector)
    (r u v : String) (t0 : ℚ) (evs : List RecEvent) (success : Bool) (t1 : ℚ)
    (hmax : 0 < s0.max_historical) :
    (∃ c, (complete_request (applyRecEvents ((start_request s0 r u v t0).2) evs)
        r success t1).1 = some c ∧ c.latency_ms = some ((t1 - t0) * 1000)) ∧
    (∃ rec rest,
      (complete_request (applyRecEvents ((start_request s0 r u v t0).2) evs)
        r success t1).2.historical_metrics = rest ++ [rec] ∧
      rec.latency_ms = (t1 - t0) * 1000 ∧ rec.request_id = r) ∧
    (complete_request (applyRecEvents ((start_request s0 r u v t0).2) evs)
        r success t1).2.successful_requests +
      (complete_request (applyRecEvents ((start_request s0 r u v t0).2) evs)
        r success t1).2.failed_requests
      = s0.successful_requests + s0.failed_requests + 1 := by
  have h1 : dictLookup ((start_request s0 r u v t0).2).active_contexts r =
      some { request_id := r, user_id := u, session_id := v, start_time := t0 } :=
    dictLookup_insert_self s0.active_contexts r _
  obtain ⟨c2, hl2, hst, hid⟩ :=
    applyRecEvents_header evs ((start_request s0 r u v t0).2) r _ h1
  obtain ⟨hsucc, hfail, _, hmaxeq⟩ :=
    applyRecEvents_aggregates evs ((start_request s0 r u v t0).2)
  rw [complete_request_found _ r success t1 c2 hl2]
  refine ⟨⟨c2.complete t1, rfl, ?_⟩, ?_, ?_⟩
  · simp [MetricsContext.complete, hst]
  · have hm2 : 0 < (applyRecEvents ((start_request s0 r u v t0).2) evs).max_historical := by
      rw [hmaxeq]
      exact hmax
    obtain ⟨rest, hrest⟩ := appendCapped_eq_append _
      ((applyRecEvents ((start_request s0 r u v t0).2) evs).historical_metrics)
      (completionRecord (c2.complete t1) success) hm2
    refine ⟨completionRecord (c2.complete t1) success, rest, hrest, ?_, ?_⟩
    · simp [completionRecord, MetricsContext.complete, hst]
    · simp [completionRecord, MetricsContext.complete, hid]
  · have hs1 : ((start_request s0 r u v t0).2).successful_requests =
        s0.successful_requests := rfl
    have hf1 : ((start_request s0 r u v t0).2).failed_requests =
        s0.failed_requests := rfl
    rw [hsucc, hfail] at *
    cases success <;> simp [hs1, hf1] <;> omega

/-- Witness for C5: concrete run with one tool-call event and latency 1 s. -/
theorem C5_latency_and_counter_increment_witness :
    0 < MetricsCollector.init.max_historical ∧
    ((∃ c, (complete_request (applyRecEvents
        ((start_request MetricsCollector.init "r1" "u" "s" 0).2)
        [RecEvent.tool "r1" "get_balance"]) "r1" true 1).1 = some c ∧
        c.latency_ms = some ((1 - 0) * 1000)) ∧
    (∃ rec rest,
      (complete_request (applyRecEvents
        ((start_request MetricsCollector.init "r1" "u" "s" 0).2)
        [RecEvent.tool "r1" "get_balance"]) "r1" true 1).2.historical_metrics
          = rest ++ [rec] ∧
      rec.latency_ms = (1 - 0) * 1000 ∧ rec.request_id = "r1") ∧
    (complete_request (applyRecEvents
        ((start_request MetricsCollector.init "r1" "u" "s" 0).2)
        [RecEvent.tool "r1" "get_balance"]) "r1" true 1).2.successful_requests +
      (complete_request (applyRecEvents
        ((start_request MetricsCollector.init "r1" "u" "s" 0).2)
        [RecEvent.tool "r1" "get_balance"]) "r1" true 1).2.failed_requests
      = MetricsCollector.init.successful_requests +
        MetricsCollector.init.failed_requests + 1) :=
  ⟨by decide,
   C5_latency_and_counter_increment MetricsCollector.init "r1" "u" "s" 0
     [RecEvent.tool "r1" "get_balance"] true 1 (by decide)⟩

/-! ### C8 machinery: completing N requests in sequence -/

/-- Request id used for the i-th request of the C8 scenario. -/
def seqReq (n : ℕ) : String := "r" ++ toString n

/-- Run `n` iterations of `start_request` immediately followed by
`complete_request(success=True)`, the i-th at time `i`. -/
def runSeq (s : MetricsCollector) : ℕ → MetricsCollector
  | 0 => s
  | n + 1 =>
    (complete_request ((start_request (runSeq s n) (seqReq n) "u" "s" (n : ℚ)).2)
      (seqReq n) true (n : ℚ)).2

/-- The historical record produced by the i-th iteration of `runSeq`. -/
def seqRecord (n : ℕ) : HistRecord :=
  { request_id := seqReq n, user_id := "u", session_id := "s", timestamp := (n : ℚ),
    latency_ms := ((n : ℚ) - (n : ℚ)) * 1000, llm_call_count := 0, llm_tokens_in := 0,
    llm_tokens_out := 0, tool_calls := [], agent_calls := [], guardrail_blocks := 0,
    errors := [], success := true }

theorem runSeq_hist (s0 : MetricsCollector) (n : ℕ) :
    (runSeq s0 n).max_historical = s0.max_historical ∧
    (runSeq s0 n).historical_metrics =
      List.foldl (appendCapped s0.max_historical) s0.historical_metrics
        ((List.range n).map seqRecord) := by
  induction n with
  | zero => exact ⟨rfl, by simp [runSeq]⟩
  | succ n ih =>
    obtain ⟨hmax, hhist⟩ := ih
    have hlook : dictLookup
        ((start_request (runSeq s0 n) (seqReq n) "u" "s" (n : ℚ)).2).active_contexts
        (seqReq n) =
        some { request_id := seqReq n, user_id := "u", session_id := "s",
               start_time := (n : ℚ) } :=
      dictLookup_insert_self _ _ _
    rw [runSeq, complete_request_found _ _ true (n : ℚ) _ hlook]
    refine ⟨hmax, ?_⟩
    rw [List.range_succ, List.map_append, List.foldl_append]
    simp only [List.map_cons, List.map_nil, List.foldl_cons, List.foldl_nil]
    have hs1 : ((start_request (runSeq s0 n) (seqReq n) "u" "s" (n : ℚ)).2).max_historical
        = (runSeq s0 n).max_historical := rfl
    have hs2 : ((start_request (runSeq s0 n) (seqReq n) "u" "s" (n : ℚ)).2).historical_metrics
        = (runSeq s0 n).historical_metrics := rfl
    show appendCapped
        ((start_request (runSeq s0 n) (seqReq n) "u" "s" (n : ℚ)).2).max_historical
        ((start_request (runSeq s0 n) (seqReq n) "u" "s" (n : ℚ)).2).historical_metrics
        _ = _
    rw [hs1, hs2, hmax, hhist]
    rfl

/-- C8: completing `N > max_historical` requests from an empty history leaves
exactly `max_historical` records; eviction is strictly FIFO, so the retained
request ids are the last `max_historical` of the `N` inserted, in insertion
order, and the first retained record is the `(N - max_historical + 1)`-th
inserted (zero-based id `N - max_historical`). -/
theorem C8_fifo_eviction (s0 : MetricsCollector) (N : ℕ)
    (h0 : s0.historical_metrics = []) (hpos : 0 < s0.max_historical)
    (hN : s0.max_historical < N) :
    (runSeq s0 N).historical_metrics.length = s0.max_historical ∧
    (runSeq s0 N).historical_metrics.map (fun rec => rec.request_id)
      = ((List.range N).map seqReq).drop (N - s0.max_historical) ∧
    ((runSeq s0 N).historical_metrics.map (fun rec => rec.request_id)).head?
      = some (seqReq (N - s0.max_historical)) := by
  obtain ⟨hmax, hhist⟩ := runSeq_hist s0 N
  rw [hhist, h0]
  have hfold := foldl_appendCapped s0.max_historical
    ((List.range N).map seqRecord) [] (by simp)
  simp only [List.nil_append, List.length_nil, Nat.zero_add] at hfold
  rw [hfold]
  have hlen : ((List.range N).map seqRecord).length = N := by
    rw [List.length_map, List.length_range]
  refine ⟨?_, ?_, ?_⟩
  · rw [List.length_drop, hlen]
    omega
  · rw [hlen, ← List.map_drop, ← List.map_drop, List.map_map]
    rfl
  · have hlt : N - s0.max_historical < N := by omega
    have hdrop : ((List.range N).drop (N - s0.max_historical)).head? =
        some (N - s0.max_historical) := by
      rw [List.head?_drop, List.getElem?_range hlt]
    rw [hlen, ← List.map_drop, List.map_map, List.head?_map, hdrop]
    rfl

/-- A collector whose (runtime-mutable) history capacity is shrunk to 2. -/
def smallCollector : MetricsCollector := { max_historical := 2 }

/-- Witness for C8: capacity 2, three completions; records r1, r2 remain. -/
theorem C8_fifo_eviction_witness :
    smallCollector.historical_metrics = [] ∧ 0 < smallCollector.max_historical ∧
    smallCollector.max_historical < 3 ∧
    ((runSeq smallCollector 3).historical_metrics.length = smallCollector.max_historical ∧
     (runSeq smallCollector 3).historical_metrics.map (fun rec => rec.request_id)
       = ((List.range 3).map seqReq).drop (3 - smallCollector.max_historical) ∧
     ((runSeq smallCollector 3).historical_metrics.map (fun rec => rec.request_id)).head?
       = some (seqReq (3 - smallCollector.max_historical))) :=
  ⟨rfl, by decide, by decide, C8_fifo_eviction smallCollector 3 rfl (by decide) (by decide)⟩

/-! ### C9: the error-rate detector -/

theorem check_error_rate_alerts_found (s : AlertSystem) (collector : MetricsCollector)
    (now : PyDateTime) (pyHash : String → ℕ) (errTable : List (String × ℚ))
    (htable : dictLookup s.thresholds AlertType.error_rate = some errTable) :
    check_error_rate_alerts s collector now pyHash =
      (if ((collector.failed_requests : ℚ) / ((max 1 collector.total_requests : ℕ) : ℚ)
            > (dictLookup errTable "max_error_rate").getD (1/20)
          ∧ 10 ≤ collector.total_requests) then
        (if (dictLookup s.active_alerts ("error_rate_" ++ now.fmtHour)).isSome then s
         else (trigger_alert s AlertType.error_rate AlertSeverity.error
           (errorRateMessage
             ((collector.failed_requests : ℚ) / ((max 1 collector.total_requests : ℕ) : ℚ))
             ((dictLookup errTable "max_error_rate").getD (1/20)))
           { error_rate := some ((collector.failed_requests : ℚ) /
               ((max 1 collector.total_requests : ℕ) : ℚ)),
             threshold := some ((dictLookup errTable "max_error_rate").getD (1/20)),
             failed_requests := some collector.failed_requests,
             total_requests := some collector.total_requests } now pyHash).2)
       else s) := by
  unfold check_error_rate_alerts
  rw [htable]
  rfl

/-- C9: over a state whose active set does not hold the literal hour key (true
of every state the system itself builds, since generated alert ids embed a
14-digit second timestamp, not the 8+2-digit hour key), the error-rate detector
triggers an `error_rate`/`error` alert if and only if
`failed / max(1, total) > max_error_rate` and `total ≥ 10`; in particular with
fewer than 10 lifetime requests it never triggers. -/
theorem C9_error_rate_detector (s : AlertSystem) (collector : MetricsCollector)
    (now : PyDateTime) (pyHash : String → ℕ) (errTable : List (String × ℚ))
    (htable : dictLookup s.thresholds AlertType.error_rate = some errTable)
    (hkey : dictLookup s.active_alerts ("error_rate_" ++ now.fmtHour) = none) :
    (collector.total_requests < 10 →
      check_error_rate_alerts s collector now pyHash = s) ∧
    (¬ ((collector.failed_requests : ℚ) / ((max 1 collector.total_requests : ℕ) : ℚ)
          > (dictLookup errTable "max_error_rate").getD (1/20)) →
      check_error_rate_alerts s collector now pyHash = s) ∧
    (((collector.failed_requests : ℚ) / ((max 1 collector.total_requests : ℕ) : ℚ)
          > (dictLookup errTable "max_error_rate").getD (1/20)
        ∧ 10 ≤ collector.total_requests) →
      check_error_rate_alerts s collector now pyHash =
        (trigger_alert s AlertType.error_rate AlertSeverity.error
          (errorRateMessage
            ((collector.failed_requests : ℚ) / ((max 1 collector.total_requests : ℕ) : ℚ))
            ((dictLookup errTable "max_error_rate").getD (1/20)))
          { error_rate := some ((collector.failed_requests : ℚ) /
              ((max 1 collector.total_requests : ℕ) : ℚ)),
            threshold := some ((dictLookup errTable "max_error_rate").getD (1/20)),
            failed_requests := some collector.failed_requests,
            total_requests := some collector.total_requests } now pyHash).2 ∧
      ∃ a : Alert, a.type = AlertType.error_rate.value ∧
        a.severity = AlertSeverity.error.value ∧
        (check_error_rate_alerts s collector now pyHash).active_alerts
          = dictInsert s.active_alerts a.id a) := by
  have heq := check_error_rate_alerts_found s collector now pyHash errTable htable
  have hkeyb : (dictLookup s.active_alerts ("error_rate_" ++ now.fmtHour)).isSome = false := by
    rw [hkey]
    rfl
  rw [hkeyb] at heq
  simp only [Bool.false_eq_true, if_false] at heq
  refine ⟨?_, ?_, ?_⟩
  · intro hlt
    rw [heq, if_neg]
    intro hcond
    omega
  · intro hnot
    rw [heq, if_neg]
    intro hcond
    exact hnot hcond.1
  · intro hcond
    rw [heq, if_pos hcond]
    refine ⟨rfl, ?_⟩
    refine ⟨Alert.mk
      (alertId AlertType.error_rate now
        (errorRateMessage
          ((collector.failed_requests : ℚ) / ((max 1 collector.total_requests : ℕ) : ℚ))
          ((dictLookup errTable "max_error_rate").getD (1/20))) pyHash)
      AlertType.error_rate.value AlertSeverity.error.value
      (errorRateMessage
        ((collector.failed_requests : ℚ) / ((max 1 collector.total_requests : ℕ) : ℚ))
        ((dictLookup errTable "max_error_rate").getD (1/20)))
      (AlertDetails.mk none none none
        (some ((collector.failed_requests : ℚ) / ((max 1 collector.total_requests : ℕ) : ℚ)))
        (some ((dictLookup errTable "max_error_rate").getD (1/20)))
        (some collector.failed_requests) (some collector.total_requests))
      now.iso "active" none none, rfl, rfl, ?_⟩
    rfl

/-- The default error-rate threshold table of a fresh alert system. -/
def errTable9 : List (String × ℚ) := [("max_error_rate", 1/20), ("window_size", 100)]

/-- A collector with 10 lifetime requests of which 2 failed (20 percent). -/
def collector10 : MetricsCollector := { total_requests := 10, failed_requests := 2 }

/-- A fixed wall-clock instant for the alert witnesses. -/
def now9 : PyDateTime :=
  { fmtSec := "20250101120000", fmtHour := "20250101_12", iso := "2025-01-01T12:00:00" }

/-- Witness for C9: 20 percent error rate over 10 requests triggers the alert. -/
theorem C9_error_rate_detector_witness :
    ∃ a : Alert, a.type = AlertType.error_rate.value ∧
      a.severity = AlertSeverity.error.value ∧
      (check_error_rate_alerts AlertSystem.init collector10 now9 (fun _ => 0)).active_alerts
        = dictInsert AlertSystem.init.active_alerts a.id a :=
  ((C9_error_rate_detector AlertSystem.init collector10 now9 (fun _ => 0) errTable9
      (by decide) (by decide)).2.2 (by decide)).2

/-! ### C4: the auto-resolution sweep -/

/-- The mutation `resolve_alert` applies to the alert it archives. -/
def markResolved (a : Alert) (msg : String) (now : PyDateTime) : Alert :=
  { a with status := "resolved", resolved_at := some now.iso,
           resolution_message := some msg }

theorem capResolved_of_le (l : List Alert) (h : l.length ≤ 1000) :
    capResolved l = l := by
  unfold capResolved
  rw [if_neg (by omega)]

theorem resolve_alert_found (st : AlertSystem) (k msg : String) (now : PyDateTime)
    (a : Alert) (ha : dictLookup st.active_alerts k = some a)
    (hcap : st.resolved_alerts.length + 1 ≤ 1000) :
    resolve_alert st k msg now = (true,
      { st with active_alerts := dictErase st.active_alerts k,
                resolved_alerts := st.resolved_alerts ++ [markResolved a msg now] }) := by
  have hlen : (st.resolved_alerts ++ [markResolved a msg now]).length ≤ 1000 := by
    simp only [List.length_append, List.length_cons, List.length_nil]
    omega
  unfold resolve_alert
  rw [ha]
  show (true,
      { st with active_alerts := dictErase st.active_alerts k,
                resolved_alerts := capResolved (st.resolved_alerts ++ [markResolved a msg now]) }) = _
  rw [capResolved_of_le _ hlen]

theorem autoResolve_fold (pm : List (String × CategoryMetrics)) (now : PyDateTime) :
    ∀ (l pre : List (String × Alert)) (st : AlertSystem),
      st.active_alerts = pre ++ l →
      ((pre ++ l).map Prod.fst).Nodup →
      st.resolved_alerts.length + l.length ≤ 1000 →
      (List.foldl (autoResolveStep pm now) st l).active_alerts
          = pre ++ l.filter (fun e => !autoResolveCond e.2 pm) ∧
      (List.foldl (autoResolveStep pm now) st l).resolved_alerts
          = st.resolved_alerts ++ (l.filter (fun e => autoResolveCond e.2 pm)).map
              (fun e => markResolved e.2 (autoResolveMessage e.2 pm) now) := by
  intro l
  induction l with
  | nil =>
    intro pre st heq hnd hb
    simp only [List.foldl_nil, List.filter_nil, List.map_nil, List.append_nil]
    exact ⟨by rw [heq]; simp, by simp⟩
  | cons e l ih =>
    intro pre st heq hnd hb
    obtain ⟨k, a⟩ := e
    simp only [List.foldl_cons]
    have hknotpre : k ∉ pre.map Prod.fst := by
      intro hk
      have hnd2 := hnd
      rw [List.map_append] at hnd2
      rcases List.nodup_append.mp hnd2 with ⟨-, -, hdisj⟩
      exact hdisj hk (by simp)
    by_cases hcond : autoResolveCond a pm = true
    · have hlookup : dictLookup st.active_alerts k = some a := by
        rw [heq, dictLookup_append_not_mem _ _ _ hknotpre, dictLookup_cons_self]
      have hstep : autoResolveStep pm now st (k, a) =
          (resolve_alert st k (autoResolveMessage a pm) now).2 := by
        simp [autoResolveStep, hcond]
      have hcap : st.resolved_alerts.length + 1 ≤ 1000 := by
        simp only [List.length_cons] at hb
        omega
      rw [hstep, resolve_alert_found st k _ now a hlookup hcap]
      dsimp only
      have herase : dictErase st.active_alerts k = pre ++ l := by
        rw [heq, dictErase_append_not_mem _ _ _ hknotpre]
        simp [dictErase]
      have hnd3 : ((pre ++ l).map Prod.fst).Nodup := by
        have hsub : List.Sublist (pre ++ l) (pre ++ (k, a) :: l) :=
          List.Sublist.append_left (List.sublist_cons_self (k, a) l) pre
        exact List.Nodup.sublist (List.Sublist.map Prod.fst hsub) hnd
      have hb3 : (st.resolved_alerts ++
          [markResolved a (autoResolveMessage a pm) now]).length + l.length ≤ 1000 := by
        simp only [List.length_append, List.length_cons, List.length_nil] at *
        omega
      obtain ⟨ha1, ha2⟩ := ih pre
        { st with active_alerts := dictErase st.active_alerts k,
                  resolved_alerts := st.resolved_alerts ++
                    [markResolved a (autoResolveMessage a pm) now] }
        herase hnd3 hb3
      refine ⟨?_, ?_⟩
      · rw [ha1]
        simp [List.filter_cons, hcond]
      · rw [ha2]
        simp [List.filter_cons, hcond]
    · have hcf : autoResolveCond a pm = false := by
        revert hcond
        cases autoResolveCond a pm <;> simp
      have hstep : autoResolveStep pm now st (k, a) = st := by
        simp [autoResolveStep, hcf]
      rw [hstep]
      have heq2 : st.active_alerts = (pre ++ [(k, a)]) ++ l := by
        rw [heq]
        simp
      have hnd2 : (((pre ++ [(k, a)]) ++ l).map Prod.fst).Nodup := by
        simpa using hnd
      have hb2 : st.resolved_alerts.length + l.length ≤ 1000 := by
        simp only [List.length_cons] at hb
        omega
      obtain ⟨ha1, ha2⟩ := ih (pre ++ [(k, a)]) st heq2 hnd2 hb2
      refine ⟨?_, ?_⟩
      · rw [ha1]
        simp [List.filter_cons, hcf]
      · rw [ha2]
        simp [List.filter_cons, hcf]

/-- C4 (amended): in one auto-resolution sweep, exactly the active alerts
satisfying `autoResolveCond` — type `performance`, a recorded category that is
present and non-empty, a current p95 for that category that is present **and
nonzero**, a recorded threshold that is present and nonzero, and p95 strictly
below that threshold — move to the resolved list with the generated recovery
message; every other active alert (including one whose current p95 is exactly
0, or at or above the threshold) stays active.
Stated for distinct active keys and a resolved archive with room (no
cap-eviction during the sweep). -/
theorem C4_auto_resolution_amended (s : AlertSystem) (tracker : PerformanceTracker)
    (now : PyDateTime)
    (hnd : (s.active_alerts.map Prod.fst).Nodup)
    (hbudget : s.resolved_alerts.length + s.active_alerts.length ≤ 1000) :
    (auto_resolve_alerts s tracker now).active_alerts
        = s.active_alerts.filter
            (fun e => !autoResolveCond e.2 (get_performance_metrics tracker)) ∧
    (auto_resolve_alerts s tracker now).resolved_alerts
        = s.resolved_alerts ++
            (s.active_alerts.filter
              (fun e => autoResolveCond e.2 (get_performance_metrics tracker))).map
              (fun e => markResolved e.2
                (autoResolveMessage e.2 (get_performance_metrics tracker)) now) := by
  have h := autoResolve_fold (get_performance_metrics tracker) now
    s.active_alerts [] s rfl (by simpa using hnd) hbudget
  simpa using h

/-- Tracker whose `api_request` history holds 20 spans of duration 0 ms
(possible with a coarse clock: `end_time = start_time`). -/
def trackerZero : PerformanceTracker :=
  { traces := [],
    historical_data := [("api_request",
      (List.range 20).map (fun _ =>
        { name := "op", category := "api_request", start_time := 0, end_time := some 0,
          duration_ms := some 0, metadata := [], parent := none }))],
    thresholds := [] }

/-- The stats `trackerZero` reports for `api_request`: p95 present and 0. -/
def cmZero : CategoryMetrics :=
  { count := 20, average_ms := 0, median_ms := 0, p95_ms := some 0,
    min_ms := 0, max_ms := 0, threshold_ms := none, threshold_exceeded_count := 0 }

/-- An active performance alert recorded for `api_request` with threshold 1000. -/
def alertZero : Alert :=
  { id := "a1", type := "performance", severity := "warning", message := "m",
    details := { category := some "api_request", p95_ms := some 3000,
                 threshold_ms := some 1000 },
    timestamp := "t", status := "active" }

/-- Alert system holding only `alertZero` in its active set. -/
def sZero : AlertSystem :=
  { thresholds := [], active_alerts := [("a1", alertZero)], resolved_alerts := [] }

set_option maxRecDepth 4000 in
set_option maxHeartbeats 1000000 in
/-- Counterexample to C4 as stated: the category's current p95 exists and is 0,
strictly below the alert's recorded threshold 1000, yet the sweep resolves
nothing — Python truthiness (`if p95_ms and threshold_ms and ...`) treats a
0.0 p95 as missing, so the alert stays active. -/
theorem C4_zero_p95_not_resolved :
    dictLookup (get_performance_metrics trackerZero) "api_request" = some cmZero ∧
    cmZero.p95_ms = some 0 ∧ alertZero.type = "performance" ∧
    alertZero.details.threshold_ms = some 1000 ∧ ((0 : ℚ) < 1000) ∧
    (auto_resolve_alerts sZero trackerZero now9).active_alerts = [("a1", alertZero)] ∧
    (auto_resolve_alerts sZero trackerZero now9).resolved_alerts = [] := by
  refine ⟨by decide, rfl, rfl, rfl, by norm_num, by decide, by decide⟩

/-- Tracker whose `api_request` history holds 20 spans of 100 ms. -/
def trackerLow : PerformanceTracker :=
  { traces := [],
    historical_data := [("api_request",
      (List.range 20).map (fun _ =>
        { name := "op", category := "api_request", start_time := 0, end_time := some 0,
          duration_ms := some 100, metadata := [], parent := none }))],
    thresholds := [] }

/-- Alert system holding one recovered-category performance alert. -/
def sRec : AlertSystem :=
  { thresholds := [], active_alerts := [("a2", alertZero)], resolved_alerts := [] }

set_option maxRecDepth 4000 in
set_option maxHeartbeats 1000000 in
/-- Witness for the amended C4: current p95 100 is nonzero and below the
recorded threshold 1000, so the sweep resolves the alert. -/
theorem C4_auto_resolution_amended_witness :
    (sRec.active_alerts.map Prod.fst).Nodup ∧
    sRec.resolved_alerts.length + sRec.active_alerts.length ≤ 1000 ∧
    ((auto_resolve_alerts sRec trackerLow now9).active_alerts
        = sRec.active_alerts.filter
            (fun e => !autoResolveCond e.2 (get_performance_metrics trackerLow)) ∧
     (auto_resolve_alerts sRec trackerLow now9).resolved_alerts
        = sRec.resolved_alerts ++
            (sRec.active_alerts.filter
              (fun e => autoResolveCond e.2 (get_performance_metrics trackerLow))).map
              (fun e => markResolved e.2
                (autoResolveMessage e.2 (get_performance_metrics trackerLow)) now9)) :=
  ⟨by decide, by decide,
   C4_auto_resolution_amended sRec trackerLow now9 (by decide) (by decide)⟩

/-! ### C1: performance-alert deduplication -/

/-- Tracker whose `api_request` history holds 20 spans of 3000 ms, so the
current p95 (3000) exceeds the default 2000 ms alert threshold. -/
def trackerHot : PerformanceTracker :=
  { traces := [],
    historical_data := [("api_request",
      (List.range 20).map (fun _ =>
        { name := "op", category := "api_request", start_time := 0, end_time := some 0,
          duration_ms := some 3000, metadata := [], parent := none }))],
    thresholds := [] }

/-- First monitor cycle: 12:00:00 inside hour bucket `20250101_12`. -/
def now1 : PyDateTime :=
  { fmtSec := "20250101120000", fmtHour := "20250101_12", iso := "2025-01-01T12:00:00" }

/-- Second monitor cycle one minute later, same hour bucket `20250101_12`. -/
def now2 : PyDateTime :=
  { fmtSec := "20250101120100", fmtHour := "20250101_12", iso := "2025-01-01T12:01:00" }

set_option maxRecDepth 8000 in
set_option maxHeartbeats 2000000 in
/-- C1 failing input: two performance-detector sweeps for the same category in
the same hour bucket leave TWO active performance alerts for that category,
not one — the detector checks its dedup key `performance_category_YYYYMMDD_HH`
against `active_alerts`, but `trigger_alert` stores alerts under ids of the
shape `performance_YYYYMMDDHHMMSS_hash`, so the key is never found and the
skip never happens, contradicting the spec and the source comments. -/
theorem C1_duplicate_performance_alerts :
    now1.fmtHour = now2.fmtHour ∧
    (check_performance_alerts (check_performance_alerts AlertSystem.init trackerHot
        now1 (fun _ => 0)) trackerHot now2 (fun _ => 0)).active_alerts.map
        (fun e => (e.2.type, e.2.details.category))
      = [("performance", some "api_request"), ("performance", some "api_request")] ∧
    (check_performance_alerts (check_performance_alerts AlertSystem.init trackerHot
        now1 (fun _ => 0)) trackerHot now2 (fun _ => 0)).active_alerts.length = 2 := by
  refine ⟨rfl, by decide, by decide⟩

/-! ### C3: trace-id derivation -/

/-- Counterexample to C3 as stated: two distinct `start_trace` calls (at the
distinct instants 5 s and 5 + 1/10000 s, inside the same millisecond) with the
same name return the *same* trace id, and the open-trace map afterwards holds a
single entry — the hash in the id is `hash(name)`, so it adds nothing for
same-name collisions. -/
theorem C3_same_name_same_ms_id_collision :
    ((5 : ℚ) ≠ 5 + 1/10000) ∧
    (start_trace PerformanceTracker.init "op" "api" none none [] 5 (fun _ => 0)).1
      = (start_trace ((start_trace PerformanceTracker.init "op" "api" none none []
          5 (fun _ => 0)).2) "op" "api" none none [] (5 + 1/10000) (fun _ => 0)).1 ∧
    ((start_trace ((start_trace PerformanceTracker.init "op" "api" none none []
        5 (fun _ => 0)).2) "op" "api" none none [] (5 + 1/10000)
        (fun _ => 0)).2).traces.length = 1 := by
  refine ⟨by norm_num, by decide, by decide⟩

/-- C3 (amended): the trace id is a pure function of the name, the millisecond
timestamp, and `hash(name) mod 10000`, so two `start_trace` calls with the
same name whose clock readings truncate to the same millisecond return the
identical id, and the second call's span overwrites the first in the open-trace
map. -/
theorem C3_trace_id_collision_amended (t : PerformanceTracker)
    (name category : String) (request_id parent : Option String)
    (md : List (String × MetaVal)) (now1q now2q : ℚ) (pyHash : String → ℕ)
    (hms : ⌊now1q * 1000⌋ = ⌊now2q * 1000⌋) :
    (start_trace t name category request_id parent md now1q pyHash).1
      = (start_trace (start_trace t name category request_id parent md now1q pyHash).2
          name category request_id parent md now2q pyHash).1 ∧
    dictLookup ((start_trace (start_trace t name category request_id parent md
          now1q pyHash).2 name category request_id parent md now2q pyHash).2).traces
        (traceId name now1q pyHash)
      = some (startSpan name category request_id parent md now2q) := by
  have hid : traceId name now2q pyHash = traceId name now1q pyHash := by
    unfold traceId
    rw [hms]
  constructor
  · show traceId name now1q pyHash = traceId name now2q pyHash
    exact hid.symm
  · show dictLookup (dictInsert (dictInsert t.traces (traceId name now1q pyHash)
        (startSpan name category request_id parent md now1q))
        (traceId name now2q pyHash) (startSpan name category request_id parent md now2q))
        (traceId name now1q pyHash) = _
    rw [hid, dictLookup_insert_self]

/-- Witness for the amended C3 at the concrete colliding instants. -/
theorem C3_trace_id_collision_amended_witness :
    (⌊(5 : ℚ) * 1000⌋ = ⌊((5 : ℚ) + 1/10000) * 1000⌋) ∧
    ((start_trace PerformanceTracker.init "op" "api" none none [] 5 (fun _ => 0)).1
      = (start_trace (start_trace PerformanceTracker.init "op" "api" none none []
          5 (fun _ => 0)).2 "op" "api" none none [] ((5 : ℚ) + 1/10000) (fun _ => 0)).1 ∧
     dictLookup ((start_trace (start_trace PerformanceTracker.init "op" "api" none none []
          5 (fun _ => 0)).2 "op" "api" none none [] ((5 : ℚ) + 1/10000)
          (fun _ => 0)).2).traces (traceId "op" 5 (fun _ => 0))
      = some (startSpan "op" "api" none none [] ((5 : ℚ) + 1/10000))) :=
  ⟨by decide,
   C3_trace_id_collision_amended PerformanceTracker.init "op" "api" none none []
     5 ((5 : ℚ) + 1/10000) (fun _ => 0) (by decide)⟩

end BankingBot
